import Mathlib

/-!
Verification of `src/tilelang/language/annotate_mesh_tensor.py`.

The module under study is `mesh_tensor_functions(mesh_shape)`: a factory that
validates a mesh shape, keeps a mutable registry `_mesh_tensor_info` keyed by
`buffer.data`, and returns three helpers:
  * `annotate_mesh_tensor_info`: clears the registry, validates and inserts each
    entry of the supplied mapping, and returns a function-attribute token;
  * `get_tile_shape`: looks the buffer up and ceil-divides the sharded
    dimensions by the mesh axis device counts;
  * `mesh_tensor_copy`: optionally converts block coordinates into element
    offsets via the registered `block_shape` and delegates to `T.copy`.

Python runtime values (the metadata dicts, the mesh-shape argument) are embedded
as the inductive `Val`; the mutable closure state is passed explicitly; each
`raise` site of the source becomes an `Err` constructor carrying exactly the
data the source interpolates into the message.
-/

namespace MeshTensor

/-- A dynamically-typed Python value, as far as this module inspects them:
integers, strings, lists and string-keyed dicts (insertion-ordered
association lists, unique keys). -/
inductive Val where
  | int (n : Int)
  | str (s : String)
  | list (elems : List Val)
  | dict (entries : List (String × Val))

/-- A `tir.Buffer`: only its storage identity `data` (the registry key) and its
`shape` are inspected by this module. -/
structure Buffer where
  data : Nat
  shape : List Int
deriving DecidableEq

/-- The errors the module raises.  All four are `ValueError` in the source,
distinguished by their message; the constructor payload is exactly what the
message interpolates.  `keyError`, `typeError` and `indexError` model raw
Python exceptions escaping from unvalidated-value subscripts. -/
inductive Err where
  | configError (cfg : Val)
  | schemaError (info : Val)
  | notFound (buffer : Buffer)
  | keyError (key : String)
  | typeError
  | indexError

/-- The registry `_mesh_tensor_info`: maps `buffer.data` to the stored info. -/
abbrev Registry := List (Nat × Val)

/-- The opaque token returned by `annotate_mesh_tensor_info`
(`T.func_attr({"mesh_tensor_info": _mesh_tensor_info})`). -/
inductive Token where
  | funcAttr (meshTensorInfo : Registry)

/-- Python dict assignment `d[k] = v`: replace the entry in place if the key
exists, append otherwise (insertion order preserved; keys are unique in a
Python dict, so at most one entry can match). -/
def dictInsert : Registry → Nat → Val → Registry
  | [], k, v => [(k, v)]
  | p :: rest, k, v =>
    if p.1 == k then (k, v) :: rest else p :: dictInsert rest k v

/-- Python `d.get(k, None)` on the registry. -/
def registryLookup (reg : Registry) (k : Nat) : Option Val :=
  (reg.find? (fun p => p.1 == k)).map (fun p => p.2)

/-- Python subscript `v[k]` with a string key: `KeyError` when a dict lacks the
key, `TypeError` when the value is not a dict. -/
def subscript (v : Val) (k : String) : Except Err Val :=
  match v with
  | .dict entries =>
    match entries.find? (fun p => p.1 == k) with
    | some p => .ok p.2
    | none => .error (.keyError k)
  | _ => .error .typeError

/-- The validation test of `annotate_mesh_tensor_info`:
`isinstance(info, dict)` and the keys `block_shape`, `program_id`, `sharding`
are all present. -/
def validInfo (info : Val) : Bool :=
  match info with
  | .dict entries =>
    entries.any (fun p => p.1 == "block_shape")
      && entries.any (fun p => p.1 == "program_id")
      && entries.any (fun p => p.1 == "sharding")
  | _ => false

/-- The loop of `annotate_mesh_tensor_info`: insert validated entries one by
one; on the first invalid entry raise, leaving the partially-filled registry
behind.  Returns the raised error (if any) together with the post-state. -/
def annotateGo : List (Buffer × Val) → Registry → Option Err × Registry
  | [], acc => (none, acc)
  | (b, info) :: rest, acc =>
    if validInfo info then annotateGo rest (dictInsert acc b.data (info))
    else (some (.schemaError info), acc)

/-- `annotate_mesh_tensor_info(mesh_tensor_info)`: the source first resets
`_mesh_tensor_info = {}` (the previous registry is discarded unconditionally,
hence the `_prev` argument is unused), then runs the validation/insertion
loop; on success it returns the function-attribute token built from the new
registry.  The deep copy of each info is the identity in this pure model. -/
def annotate_mesh_tensor_info (input : List (Buffer × Val)) (_prev : Registry) :
    Except Err Token × Registry :=
  match annotateGo input [] with
  | (some e, acc) => (.error e, acc)
  | (none, acc) => (.ok (.funcAttr acc), acc)

/-- The mesh-shape validation at the top of `mesh_tensor_functions`: accept any
dict containing both keys `"x"` and `"y"` (the values are not inspected),
otherwise raise. -/
def mesh_tensor_functions (mesh_shape : Val) : Except Err Val :=
  match mesh_shape with
  | .dict entries =>
    if entries.any (fun p => p.1 == "x") && entries.any (fun p => p.1 == "y") then
      .ok (.dict entries)
    else
      .error (.configError (.dict entries))
  | v => .error (.configError v)

/-- Python sequence indexing: negative indices count from the end; anything out
of range is an `IndexError`. -/
def pyIndex (len : Nat) (i : Int) : Option Nat :=
  let j := if i < 0 then i + len else i
  if 0 ≤ j ∧ j < len then some j.toNat else none

/-- Python `xs[i]` on a list of integers. -/
def pyGet (xs : List Int) (i : Int) : Except Err Int :=
  match pyIndex xs.length i with
  | some j => .ok (xs.getD j 0)
  | none => .error .indexError

/-- Python `xs[i] = v` on a list of integers. -/
def pySet (xs : List Int) (i : Int) (v : Int) : Except Err (List Int) :=
  match pyIndex xs.length i with
  | some j => .ok (xs.set j v)
  | none => .error .indexError

/-- `T.ceildiv(a, b)` on integer arguments: `(a + b - 1) / b`.  Every verified
property below uses it with a non-negative numerator and positive
denominator, where integer division is floor division. -/
def ceildiv (a b : Int) : Int := (a + b - 1) / b

/-- One update line of `get_tile_shape`:
`tile_shape[s] = T.ceildiv(tile_shape[s], _mesh_shape[axis])`.
The subscript `tile_shape[s]` requires an integer `s` (`TypeError`
otherwise) in range (`IndexError` otherwise); `_mesh_shape[axis]` must hold
an integer for `T.ceildiv` to compute. -/
def shardUpdate (ts : List Int) (idx : Val) (mesh : Val) (axis : String) :
    Except Err (List Int) :=
  match idx with
  | .int i =>
    match pyGet ts i with
    | .error e => .error e
    | .ok g =>
      match subscript mesh axis with
      | .error e => .error e
      | .ok nv =>
        match nv with
        | .int n => pySet ts i (ceildiv g n)
        | _ => .error .typeError
  | _ => .error .typeError

/-- `get_tile_shape(buffer)`: look the buffer up (raising the not-found
`ValueError` on a miss), read `info["sharding"]["x"]` and
`info["sharding"]["y"]`, then ceil-divide those two positions of the shape by
`_mesh_shape["x"]` and `_mesh_shape["y"]` in that order (the second update
reads the already-updated list). -/
def get_tile_shape (mesh : Val) (reg : Registry) (buffer : Buffer) :
    Except Err (List Int) :=
  match registryLookup reg buffer.data with
  | none => .error (.notFound buffer)
  | some info =>
    match subscript info "sharding" with
    | .error e => .error e
    | .ok sh =>
      match subscript sh "x" with
      | .error e => .error e
      | .ok sxv =>
        match subscript sh "y" with
        | .error e => .error e
        | .ok syv =>
          match shardUpdate buffer.shape sxv mesh "x" with
          | .error e => .error e
          | .ok ts1 => shardUpdate ts1 syv mesh "y"

/-- A (possibly re-sliced) tensor view handed to the external copy primitive:
either the whole buffer or the sub-view `b[offsets]`. -/
inductive View where
  | whole (b : Buffer)
  | sliced (b : Buffer) (offsets : List Int)

/-- The call `T.copy(src, dst)` finally delegated to. -/
structure CopyCall where
  src : View
  dst : View

/-- `tuple(i * b for i, b in zip(coord, block_shape))`: `zip` truncates to the
shorter sequence; each reached `block_shape` element must be an integer. -/
def zipOffsets : List Int → List Val → Except Err (List Int)
  | [], _ => .ok []
  | _, [] => .ok []
  | i :: is, bv :: bs =>
    match bv with
    | .int n =>
      match zipOffsets is bs with
      | .error e => .error e
      | .ok rest => .ok ((i * n) :: rest)
    | _ => .error .typeError

/-- One side of `mesh_tensor_copy`.  With no coordinate the buffer passes
through whole, without touching the registry.  With a coordinate, the lookup
`_mesh_tensor_info[b.data]` and the subscript `info["block_shape"]` run in a
`try` block whose `except KeyError` re-raises as the not-found `ValueError`;
other exceptions (`TypeError`) escape unchanged. -/
def sideResolve (reg : Registry) (b : Buffer) (coord : Option (List Int)) :
    Except Err View :=
  match coord with
  | none => .ok (.whole b)
  | some c =>
    match registryLookup reg b.data with
    | none => .error (.notFound b)
    | some info =>
      match subscript info "block_shape" with
      | .error (.keyError _) => .error (.notFound b)
      | .error e => .error e
      | .ok bsv =>
        match bsv with
        | .list bs =>
          match zipOffsets c bs with
          | .error e => .error e
          | .ok offs => .ok (.sliced b offs)
        | _ => .error .typeError

/-- `mesh_tensor_copy(src, dst, src_coord=…, dst_coord=…)`: resolve the source
side, then the destination side, then delegate to `T.copy`. -/
def mesh_tensor_copy (reg : Registry) (src dst : Buffer)
    (src_coord dst_coord : Option (List Int)) : Except Err CopyCall :=
  match sideResolve reg src src_coord with
  | .error e => .error e
  | .ok sv =>
    match sideResolve reg dst dst_coord with
    | .error e => .error e
    | .ok dv => .ok { src := sv, dst := dv }

/-- The amended acceptance condition of claim C4, written after the spec's
(corrected) words: the configuration is a mapping containing both axis keys
`"x"` and `"y"`; the axis values themselves are not inspected. -/
def specConfigAccepted (cfg : Val) : Bool :=
  match cfg with
  | .dict entries =>
    entries.any (fun p => p.1 == "x") && entries.any (fun p => p.1 == "y")
  | _ => false

/-- The amended acceptance condition of claim C3, written after the spec's
(corrected) words: an annotation entry is acceptable exactly when its info is
a mapping containing all three required keys `"block_shape"`, `"program_id"`
and `"sharding"` (extra keys are allowed, the values are not inspected); a
non-mapping info or one missing a required key is a schema violation. -/
def specInfoAccepted (info : Val) : Bool :=
  match info with
  | .dict entries =>
    entries.any (fun p => p.1 == "block_shape")
      && entries.any (fun p => p.1 == "program_id")
      && entries.any (fun p => p.1 == "sharding")
  | _ => false

end MeshTensor

/-! ## Helper lemmas -/

namespace MeshTensor

theorem zipOffsets_map_int (c bs : List Int) :
    zipOffsets c (bs.map Val.int) = .ok (List.zipWith (fun i b => i * b) c bs) := by
  induction c generalizing bs with
  | nil => cases bs <;> rfl
  | cons i is ih =>
    cases bs with
    | nil => rfl
    | cons b bs => simp [zipOffsets, ih]

end MeshTensor

/-! ## Claims -/

namespace MeshTensor

/-- Claim C4, counterexample: a mesh configuration whose `"x"` count is zero
and whose `"y"` count is not an integer is accepted by the constructor, not
rejected with a `ConfigError` as the claim requires. -/
theorem c4_counterexample :
    mesh_tensor_functions (.dict [("x", .int 0), ("y", .str "four")]) =
      .ok (.dict [("x", .int 0), ("y", .str "four")]) := rfl

/-- Claim C4, amended: constructing the mesh descriptor fails with a
`ConfigError` exactly when the configuration is not a mapping containing both
axis keys `"x"` and `"y"`; the axis values are not validated (zero, negative
or non-integer device counts are accepted). -/
theorem c4_mesh_config_validation (cfg : Val) :
    mesh_tensor_functions cfg =
      (if specConfigAccepted cfg then .ok cfg else .error (.configError cfg)) := by
  cases cfg <;> rfl

/-- Claim C3, counterexample: an entry that contains `"block_shape"` and
`"sharding"` but lacks `"program_id"` is rejected by `annotate`, while the
claim says it must be accepted. -/
theorem c3_counterexample :
    annotate_mesh_tensor_info
        [(⟨0, [128, 256]⟩,
          .dict [("block_shape", .list [.int 16, .int 16]),
                 ("sharding", .dict [("x", .int 0), ("y", .int 1)])])] []
      = (.error (.schemaError
          (.dict [("block_shape", .list [.int 16, .int 16]),
                  ("sharding", .dict [("x", .int 0), ("y", .int 1)])])), []) := rfl

end MeshTensor

namespace MeshTensor

theorem sideResolve_some_ok (reg : Registry) (b : Buffer) (info : Val)
    (bs c : List Int)
    (hlook : registryLookup reg b.data = some info)
    (hbs : subscript info "block_shape" = .ok (.list (bs.map Val.int))) :
    sideResolve reg b (some c)
      = .ok (.sliced b (List.zipWith (fun i bl => i * bl) c bs)) := by
  simp [sideResolve, hlook, hbs, zipOffsets_map_int]

/-- Claim C2, counterexample: a three-element block coordinate against a
recorded two-element `block_shape` does not fail with any error; `zip`
silently truncates and the copy is delegated with the offsets of the first
two dimensions. -/
theorem c2_counterexample :
    ([2, 3, 4] : List Int).length ≠ ([16, 16] : List Int).length
    ∧ mesh_tensor_copy
        [(0, .dict [("block_shape", .list [.int 16, .int 16]),
                    ("program_id", .int 0),
                    ("sharding", .dict [("x", .int 0), ("y", .int 1)])])]
        ⟨0, [64, 64]⟩ ⟨1, [64, 64]⟩ (some [2, 3, 4]) none
      = .ok ⟨.sliced ⟨0, [64, 64]⟩ [32, 48], .whole ⟨1, [64, 64]⟩⟩ :=
  ⟨by decide, rfl⟩

/-- Claim C2, amended: `copy` performs no length check between a supplied
block coordinate and the recorded `block_shape`; the element offset is the
elementwise product over `zip`, which truncates to the shorter of the two
sequences, and no error arises from a length mismatch. -/
theorem c2_no_length_check (reg : Registry) (src dst : Buffer) (info : Val)
    (bs c : List Int)
    (hlook : registryLookup reg src.data = some info)
    (hbs : subscript info "block_shape" = .ok (.list (bs.map Val.int))) :
    mesh_tensor_copy reg src dst (some c) none
      = .ok ⟨.sliced src (List.zipWith (fun i bl => i * bl) c bs), .whole dst⟩ := by
  have hs := sideResolve_some_ok reg src info bs c hlook hbs
  unfold mesh_tensor_copy
  rw [hs]
  rfl

/-- Claim C2 witness: the amended theorem applied to a registry holding block
shape `(16, 16)` and the mismatched coordinate `(2, 3, 4)`. -/
theorem c2_no_length_check_witness :
    mesh_tensor_copy
        [(0, .dict [("block_shape", .list [.int 16, .int 16]),
                    ("program_id", .int 0),
                    ("sharding", .dict [("x", .int 0), ("y", .int 1)])])]
        ⟨0, [64, 64]⟩ ⟨1, [64, 64]⟩ (some [2, 3, 4]) none
      = .ok ⟨.sliced ⟨0, [64, 64]⟩
              (List.zipWith (fun i bl => i * bl) [2, 3, 4] [16, 16]),
            .whole ⟨1, [64, 64]⟩⟩ :=
  c2_no_length_check
    [(0, .dict [("block_shape", .list [.int 16, .int 16]),
                ("program_id", .int 0),
                ("sharding", .dict [("x", .int 0), ("y", .int 1)])])]
    ⟨0, [64, 64]⟩ ⟨1, [64, 64]⟩
    (.dict [("block_shape", .list [.int 16, .int 16]),
            ("program_id", .int 0),
            ("sharding", .dict [("x", .int 0), ("y", .int 1)])])
    [16, 16] [2, 3, 4] rfl rfl

/-- Claim C7: with a block coordinate on a registered side whose coordinate
length equals the recorded block shape's length, the corresponding tensor is
re-sliced at the elementwise product of coordinate and block shape (shown for
the source and, symmetrically, the destination); with the coordinate omitted
the whole tensor passes through, for every registry (hence with no lookup)
and never with an error. -/
theorem c7_copy_slicing (reg : Registry) (b other : Buffer) (info : Val)
    (bs c : List Int)
    (hlook : registryLookup reg b.data = some info)
    (hbs : subscript info "block_shape" = .ok (.list (bs.map Val.int)))
    (hlen : c.length = bs.length) :
    sideResolve reg b (some c)
      = .ok (.sliced b (List.zipWith (fun i bl => i * bl) c bs))
    ∧ (∀ (reg2 : Registry) (b2 : Buffer), sideResolve reg2 b2 none = .ok (.whole b2))
    ∧ mesh_tensor_copy reg b other (some c) none
      = .ok ⟨.sliced b (List.zipWith (fun i bl => i * bl) c bs), .whole other⟩
    ∧ mesh_tensor_copy reg other b none (some c)
      = .ok ⟨.whole other, .sliced b (List.zipWith (fun i bl => i * bl) c bs)⟩ := by
  have hs := sideResolve_some_ok reg b info bs c hlook hbs
  refine ⟨hs, fun reg2 b2 => rfl, ?_, ?_⟩ <;> (unfold mesh_tensor_copy; rw [hs]; rfl)

/-- Claim C7 witness: block shape `(16, 16)` and coordinate `(2, 3)` resolve
the source to the element offset `(32, 48)`, and omitted coordinates pass the
buffers through whole. -/
theorem c7_copy_slicing_witness :
    mesh_tensor_copy
        [(0, .dict [("block_shape", .list [.int 16, .int 16]),
                    ("program_id", .int 0),
                    ("sharding", .dict [("x", .int 0), ("y", .int 1)])])]
        ⟨0, [64, 64]⟩ ⟨1, [64, 64]⟩ (some [2, 3]) none
      = .ok ⟨.sliced ⟨0, [64, 64]⟩
              (List.zipWith (fun i bl => i * bl) [2, 3] [16, 16]),
            .whole ⟨1, [64, 64]⟩⟩
    ∧ sideResolve [] ⟨5, [8]⟩ none = .ok (.whole ⟨5, [8]⟩) :=
  ⟨(c7_copy_slicing
      [(0, .dict [("block_shape", .list [.int 16, .int 16]),
                  ("program_id", .int 0),
                  ("sharding", .dict [("x", .int 0), ("y", .int 1)])])]
      ⟨0, [64, 64]⟩ ⟨1, [64, 64]⟩
      (.dict [("block_shape", .list [.int 16, .int 16]),
              ("program_id", .int 0),
              ("sharding", .dict [("x", .int 0), ("y", .int 1)])])
      [16, 16] [2, 3] rfl rfl rfl).2.2.1,
   (c7_copy_slicing
      [(0, .dict [("block_shape", .list [.int 16, .int 16]),
                  ("program_id", .int 0),
                  ("sharding", .dict [("x", .int 0), ("y", .int 1)])])]
      ⟨0, [64, 64]⟩ ⟨1, [64, 64]⟩
      (.dict [("block_shape", .list [.int 16, .int 16]),
              ("program_id", .int 0),
              ("sharding", .dict [("x", .int 0), ("y", .int 1)])])
      [16, 16] [2, 3] rfl rfl rfl).2.1 [] ⟨5, [8]⟩⟩

/-- Claim C9: a block coordinate supplied for a side whose buffer has no
registered metadata makes `copy` fail with the not-found error carrying that
side's offending buffer (source and destination each yield their own
buffer), and `get_tile_shape` on an unregistered buffer fails with the same
not-found error kind instead of returning a default. -/
theorem c9_not_found_errors (reg : Registry) (src dst b : Buffer)
    (c : List Int) (mesh : Val) :
    (registryLookup reg src.data = none →
      ∀ dc, mesh_tensor_copy reg src dst (some c) dc = .error (.notFound src))
    ∧ (registryLookup reg dst.data = none →
      mesh_tensor_copy reg src dst none (some c) = .error (.notFound dst))
    ∧ (registryLookup reg b.data = none →
      get_tile_shape mesh reg b = .error (.notFound b)) := by
  refine ⟨fun h dc => ?_, fun h => ?_, fun h => ?_⟩ <;>
    simp [mesh_tensor_copy, sideResolve, get_tile_shape, h]

/-- Claim C9 witness: against the empty registry, a coordinate on either side
fails naming that side's buffer, and the tile-shape query fails with the
same error kind. -/
theorem c9_not_found_errors_witness :
    mesh_tensor_copy [] ⟨0, [64]⟩ ⟨1, [64]⟩ (some [0]) none
      = .error (.notFound ⟨0, [64]⟩)
    ∧ mesh_tensor_copy [] ⟨0, [64]⟩ ⟨1, [64]⟩ none (some [0])
      = .error (.notFound ⟨1, [64]⟩)
    ∧ get_tile_shape (.dict [("x", .int 2), ("y", .int 2)]) [] ⟨2, [64]⟩
      = .error (.notFound ⟨2, [64]⟩) :=
  ⟨(c9_not_found_errors [] ⟨0, [64]⟩ ⟨1, [64]⟩ ⟨2, [64]⟩ [0]
      (.dict [("x", .int 2), ("y", .int 2)])).1 rfl none,
   (c9_not_found_errors [] ⟨0, [64]⟩ ⟨1, [64]⟩ ⟨2, [64]⟩ [0]
      (.dict [("x", .int 2), ("y", .int 2)])).2.1 rfl,
   (c9_not_found_errors [] ⟨0, [64]⟩ ⟨1, [64]⟩ ⟨2, [64]⟩ [0]
      (.dict [("x", .int 2), ("y", .int 2)])).2.2 rfl⟩

end MeshTensor

namespace MeshTensor

theorem registryLookup_cons (q : Nat × Val) (rest : Registry) (k : Nat) :
    registryLookup (q :: rest) k
      = if q.1 = k then some q.2 else registryLookup rest k := by
  by_cases h : q.1 = k
  · simp [registryLookup, List.find?, h]
  · have hb : (q.1 == k) = false := beq_eq_false_iff_ne.mpr h
    simp [registryLookup, List.find?, hb, h]

theorem mem_dictInsert {reg : Registry} {k : Nat} {v : Val} {p : Nat × Val}
    (hp : p ∈ dictInsert reg k v) : p ∈ reg ∨ p = (k, v) := by
  induction reg with
  | nil =>
    simp only [dictInsert, List.mem_singleton] at hp
    exact Or.inr hp
  | cons q rest ih =>
    simp only [dictInsert] at hp
    split at hp
    · rcases List.mem_cons.mp hp with h | h
      · exact Or.inr h
      · exact Or.inl (List.mem_cons_of_mem q h)
    · rcases List.mem_cons.mp hp with h | h
      · exact Or.inl (h ▸ List.mem_cons_self q rest)
      · rcases ih h with h' | h'
        · exact Or.inl (List.mem_cons_of_mem q h')
        · exact Or.inr h'

theorem registryLookup_dictInsert_self (reg : Registry) (k : Nat) (v : Val) :
    registryLookup (dictInsert reg k v) k = some v := by
  induction reg with
  | nil => simp [dictInsert, registryLookup_cons]
  | cons q rest ih =>
    simp only [dictInsert]
    split
    · simp [registryLookup_cons]
    · rename_i hq
      rw [registryLookup_cons, if_neg (by simpa using hq)]
      exact ih

theorem registryLookup_dictInsert_ne (reg : Registry) (k : Nat) (v : Val)
    (k' : Nat) (h : k' ≠ k) :
    registryLookup (dictInsert reg k v) k' = registryLookup reg k' := by
  induction reg with
  | nil => simp [dictInsert, registryLookup_cons, registryLookup, Ne.symm h]
  | cons q rest ih =>
    simp only [dictInsert]
    split
    · rename_i hq
      rw [registryLookup_cons, registryLookup_cons, if_neg (Ne.symm h),
        if_neg (fun hx => Ne.symm h ((eq_of_beq hq).symm.trans hx))]
    · rw [registryLookup_cons, registryLookup_cons]
      by_cases hq' : q.1 = k'
      · rw [if_pos hq', if_pos hq']
      · rw [if_neg hq', if_neg hq']
        exact ih

theorem annotateGo_mem (P : Nat × Val → Prop) :
    ∀ (input : List (Buffer × Val)) (acc : Registry),
      (∀ p ∈ acc, P p) → (∀ q ∈ input, P (q.1.data, q.2)) →
      ∀ p ∈ (annotateGo input acc).2, P p := by
  intro input
  induction input with
  | nil => intro acc hacc _ p hp; exact hacc p hp
  | cons q rest ih =>
    intro acc hacc hin p hp
    obtain ⟨b, info⟩ := q
    simp only [annotateGo] at hp
    split at hp
    · refine ih (dictInsert acc b.data info) ?_
        (fun r hr => hin r (List.mem_cons_of_mem _ hr)) p hp
      intro r hr
      rcases mem_dictInsert hr with h | h
      · exact hacc r h
      · exact h ▸ hin (b, info) (List.mem_cons_self _ _)
    · exact hacc p hp

theorem annotateGo_fst_none :
    ∀ (input : List (Buffer × Val)) (acc : Registry),
      (annotateGo input acc).1 = none → ∀ q ∈ input, validInfo q.2 = true := by
  intro input
  induction input with
  | nil => intro acc _ q hq; cases hq
  | cons q rest ih =>
    intro acc hnone r hr
    obtain ⟨b, info⟩ := q
    simp only [annotateGo] at hnone
    split at hnone
    · rename_i hvalid
      rcases List.mem_cons.mp hr with h | h
      · rw [h]; exact hvalid
      · exact ih (dictInsert acc b.data info) hnone r h
    · cases hnone
  
theorem annotateGo_lookup_absent :
    ∀ (input : List (Buffer × Val)) (acc : Registry) (k : Nat),
      (∀ q ∈ input, q.1.data ≠ k) →
      registryLookup (annotateGo input acc).2 k = registryLookup acc k := by
  intro input
  induction input with
  | nil => intro acc k _; rfl
  | cons q rest ih =>
    intro acc k habs
    obtain ⟨b, info⟩ := q
    simp only [annotateGo]
    split
    · rw [ih (dictInsert acc b.data info) k
        (fun r hr => habs r (List.mem_cons_of_mem _ hr))]
      exact registryLookup_dictInsert_ne acc b.data info k
        (fun h => habs (b, info) (List.mem_cons_self _ _) h.symm)
    · rfl

theorem annotateGo_lookup_present :
    ∀ (input : List (Buffer × Val)) (acc : Registry) (b : Buffer) (info : Val),
      (b, info) ∈ input →
      (∀ q ∈ input, validInfo q.2 = true) →
      input.Pairwise (fun q r => q.1.data ≠ r.1.data) →
      registryLookup (annotateGo input acc).2 b.data = some info := by
  intro input
  induction input with
  | nil => intro acc b info h _ _; cases h
  | cons q rest ih =>
    intro acc b info hmem hval hpw
    obtain ⟨b0, i0⟩ := q
    have hv0 : validInfo i0 = true := hval (b0, i0) (List.mem_cons_self _ _)
    simp only [annotateGo, hv0, if_true]
    rcases List.mem_cons.mp hmem with h | h
    · injection h with h1 h2
      subst h1; subst h2
      rw [annotateGo_lookup_absent rest (dictInsert acc b.data info) b.data
        (fun r hr => ((List.pairwise_cons.mp hpw).1 r hr).symm)]
      exact registryLookup_dictInsert_self acc b.data info
    · exact ih (dictInsert acc b0.data i0) b info h
        (fun r hr => hval r (List.mem_cons_of_mem _ hr))
        (List.pairwise_cons.mp hpw).2

/-- Claim C1: when `annotate` fails on an invalid entry, the resulting
registry state never mixes previously-registered entries with entries of the
new mapping: the call's outcome is independent of the previous registry
(which is discarded up front), and every entry left in the post-failure
registry stems from the new mapping (in fact from its validated prefix). -/
theorem c1_failed_annotate_no_mix (input : List (Buffer × Val)) (prev : Registry)
    (e : Err) (reg' : Registry)
    (hfail : annotate_mesh_tensor_info input prev = (.error e, reg')) :
    (∀ prev' : Registry,
        annotate_mesh_tensor_info input prev'
          = annotate_mesh_tensor_info input prev)
    ∧ reg' ⊆ input.map (fun q => (q.1.data, q.2)) := by
  refine ⟨fun prev' => rfl, ?_⟩
  have hreg : reg' = (annotateGo input []).2 := by
    unfold annotate_mesh_tensor_info at hfail
    rcases hgo : annotateGo input [] with ⟨oe, acc⟩
    rw [hgo] at hfail
    cases oe with
    | none =>
      injection hfail with h1 h2
      exact Except.noConfusion h1
    | some e2 =>
      injection hfail with h1 h2
      exact h2.symm
  rw [hreg]
  intro p hp
  exact annotateGo_mem (fun r => r ∈ input.map (fun q => (q.1.data, q.2)))
    input [] (fun r hr => absurd hr (List.not_mem_nil r))
    (fun q hq => List.mem_map.mpr ⟨q, hq, rfl⟩) p hp

/-- Claim C1 witness: a mapping whose second entry is invalid fails, leaving
only the validated first entry of the new mapping — nothing of the
previously-registered registry `[(9, …)]` survives. -/
theorem c1_failed_annotate_no_mix_witness :
    annotate_mesh_tensor_info
        [(⟨0, [64]⟩, .dict [("block_shape", .list [.int 16]),
                            ("program_id", .int 0),
                            ("sharding", .dict [("x", .int 0), ("y", .int 0)])]),
         (⟨1, [64]⟩, .int 3)]
        [(9, .int 7)]
      = (.error (.schemaError (.int 3)),
         [(0, .dict [("block_shape", .list [.int 16]),
                     ("program_id", .int 0),
                     ("sharding", .dict [("x", .int 0), ("y", .int 0)])])])
    ∧ [((0 : Nat), Val.dict [("block_shape", .list [.int 16]),
                     ("program_id", .int 0),
                     ("sharding", .dict [("x", .int 0), ("y", .int 0)])])]
      ⊆ List.map (fun q => (q.1.data, q.2))
          [(⟨0, [64]⟩, .dict [("block_shape", .list [.int 16]),
                              ("program_id", .int 0),
                              ("sharding", .dict [("x", .int 0), ("y", .int 0)])]),
           ((⟨1, [64]⟩ : Buffer), Val.int 3)] :=
  ⟨rfl,
   (c1_failed_annotate_no_mix
      [(⟨0, [64]⟩, .dict [("block_shape", .list [.int 16]),
                          ("program_id", .int 0),
                          ("sharding", .dict [("x", .int 0), ("y", .int 0)])]),
       (⟨1, [64]⟩, .int 3)]
      [(9, .int 7)] (.schemaError (.int 3))
      [(0, .dict [("block_shape", .list [.int 16]),
                  ("program_id", .int 0),
                  ("sharding", .dict [("x", .int 0), ("y", .int 0)])])]
      rfl).2⟩

end MeshTensor

namespace MeshTensor

/-- Claim C6: after a successful `annotate` call (on a mapping whose buffers
have pairwise-distinct storage identities), looking up any annotated buffer
returns exactly the supplied info, while any buffer whose storage identity is
absent from the latest mapping — including one registered by an earlier call
— is unregistered, so tile-shape computation on it fails with the not-found
error.  (Mutation of caller-owned dicts after the deep copy is not
observable in this pure model; the stored value equals the supplied one.) -/
theorem c6_annotate_lookup_roundtrip (input : List (Buffer × Val))
    (prev : Registry) (tok : Token) (reg' : Registry)
    (hdist : input.Pairwise (fun q r => q.1.data ≠ r.1.data))
    (hok : annotate_mesh_tensor_info input prev = (.ok tok, reg')) :
    (∀ (b : Buffer) (info : Val), (b, info) ∈ input →
        registryLookup reg' b.data = some info)
    ∧ ∀ other : Buffer, (∀ q ∈ input, q.1.data ≠ other.data) →
        registryLookup reg' other.data = none
        ∧ ∀ mesh : Val, get_tile_shape mesh reg' other = .error (.notFound other) := by
  have hreg : reg' = (annotateGo input []).2 ∧ (annotateGo input []).1 = none := by
    unfold annotate_mesh_tensor_info at hok
    rcases hgo : annotateGo input [] with ⟨oe, acc⟩
    rw [hgo] at hok
    cases oe with
    | none =>
      injection hok with h1 h2
      exact ⟨h2.symm, rfl⟩
    | some e2 =>
      injection hok with h1 h2
      exact Except.noConfusion h1
  obtain ⟨hr2, hr1⟩ := hreg
  have hval : ∀ q ∈ input, validInfo q.2 = true := annotateGo_fst_none input [] hr1
  constructor
  · intro b info hmem
    rw [hr2]
    exact annotateGo_lookup_present input [] b info hmem hval hdist
  · intro other habs
    have hnone : registryLookup reg' other.data = none := by
      rw [hr2, annotateGo_lookup_absent input [] other.data habs]
      rfl
    refine ⟨hnone, fun mesh => ?_⟩
    unfold get_tile_shape
    rw [hnone]

/-- Claim C6 witness: annotating two buffers over a previous registry holding
storage identity 7 makes lookups on the annotated identities return the
supplied infos, while identity 7 is gone and its tile-shape query fails. -/
theorem c6_annotate_lookup_roundtrip_witness :
    registryLookup
        [(0, Val.dict [("block_shape", .list [.int 16, .int 16]),
                       ("program_id", .int 0),
                       ("sharding", .dict [("x", .int 0), ("y", .int 1)])]),
         (1, Val.dict [("block_shape", .list [.int 8]),
                       ("program_id", .int 1),
                       ("sharding", .dict [("x", .int 0), ("y", .int 0)])])]
        0
      = some (.dict [("block_shape", .list [.int 16, .int 16]),
                     ("program_id", .int 0),
                     ("sharding", .dict [("x", .int 0), ("y", .int 1)])])
    ∧ registryLookup
        [(0, Val.dict [("block_shape", .list [.int 16, .int 16]),
                       ("program_id", .int 0),
                       ("sharding", .dict [("x", .int 0), ("y", .int 1)])]),
         (1, Val.dict [("block_shape", .list [.int 8]),
                       ("program_id", .int 1),
                       ("sharding", .dict [("x", .int 0), ("y", .int 0)])])]
        7
      = none
    ∧ get_tile_shape (.dict [("x", .int 2), ("y", .int 2)])
        [(0, Val.dict [("block_shape", .list [.int 16, .int 16]),
                       ("program_id", .int 0),
                       ("sharding", .dict [("x", .int 0), ("y", .int 1)])]),
         (1, Val.dict [("block_shape", .list [.int 8]),
                       ("program_id", .int 1),
                       ("sharding", .dict [("x", .int 0), ("y", .int 0)])])]
        ⟨7, [64]⟩
      = .error (.notFound ⟨7, [64]⟩) := by
  have h := c6_annotate_lookup_roundtrip
    [(⟨0, [128, 256]⟩, .dict [("block_shape", .list [.int 16, .int 16]),
                              ("program_id", .int 0),
                              ("sharding", .dict [("x", .int 0), ("y", .int 1)])]),
     (⟨1, [32]⟩, .dict [("block_shape", .list [.int 8]),
                        ("program_id", .int 1),
                        ("sharding", .dict [("x", .int 0), ("y", .int 0)])])]
    [(7, .int 9)]
    (.funcAttr
      [(0, .dict [("block_shape", .list [.int 16, .int 16]),
                  ("program_id", .int 0),
                  ("sharding", .dict [("x", .int 0), ("y", .int 1)])]),
       (1, .dict [("block_shape", .list [.int 8]),
                  ("program_id", .int 1),
                  ("sharding", .dict [("x", .int 0), ("y", .int 0)])])])
    [(0, .dict [("block_shape", .list [.int 16, .int 16]),
                ("program_id", .int 0),
                ("sharding", .dict [("x", .int 0), ("y", .int 1)])]),
     (1, .dict [("block_shape", .list [.int 8]),
                ("program_id", .int 1),
                ("sharding", .dict [("x", .int 0), ("y", .int 0)])])]
    (by simp) rfl
  refine ⟨h.1 ⟨0, [128, 256]⟩ _ (List.mem_cons_self _ _), ?_, ?_⟩
  · exact (h.2 ⟨7, [64]⟩ (by simp)).1
  · exact (h.2 ⟨7, [64]⟩ (by simp)).2 (.dict [("x", .int 2), ("y", .int 2)])

end MeshTensor

namespace MeshTensor

theorem getD_set_self (l : List Int) (j : Nat) (v : Int) (h : j < l.length) :
    (l.set j v).getD j 0 = v := by
  simp [List.getD_eq_getElem?_getD, List.getElem?_set_self h]

theorem getD_set_ne (l : List Int) (i j : Nat) (v : Int) (h : i ≠ j) :
    (l.set i v).getD j 0 = l.getD j 0 := by
  simp [List.getD_eq_getElem?_getD, List.getElem?_set_ne h]

theorem shardUpdate_ok (ts : List Int) (i n : Int) (mesh : Val) (axis : String)
    (hm : subscript mesh axis = .ok (.int n))
    (h0 : 0 ≤ i) (h1 : i < (ts.length : Int)) :
    shardUpdate ts (.int i) mesh axis
      = .ok (ts.set i.toNat (ceildiv (ts.getD i.toNat 0) n)) := by
  have hni : ¬ i < 0 := not_lt.mpr h0
  have hidx : pyIndex ts.length i = some i.toNat := by
    simp only [pyIndex, hni, if_false]
    rw [if_pos ⟨h0, h1⟩]
  simp only [shardUpdate, pyGet, pySet, hidx, hm]

/-- Claim C5: for a registered buffer whose sharding maps mesh axis `"x"` to
dimension `dx` and `"y"` to dimension `dy` with `dx ≠ dy`, and mesh device
counts `nx, ny > 0`, the computed tile shape ceil-divides dimension `dx` by
`nx` and dimension `dy` by `ny` and leaves every other dimension unchanged;
`ceildiv` agrees with the floor form `floor((a + b - 1) / b)`. -/
theorem c5_tile_shape_distinct_axes
    (mesh : Val) (reg : Registry) (buf : Buffer) (info sh : Val)
    (dx dy nx ny : Int)
    (hlook : registryLookup reg buf.data = some info)
    (hsh : subscript info "sharding" = .ok sh)
    (hshx : subscript sh "x" = .ok (.int dx))
    (hshy : subscript sh "y" = .ok (.int dy))
    (hmx : subscript mesh "x" = .ok (.int nx))
    (hmy : subscript mesh "y" = .ok (.int ny))
    (hnx : 0 < nx) (hny : 0 < ny)
    (hdx0 : 0 ≤ dx) (hdx1 : dx < (buf.shape.length : Int))
    (hdy0 : 0 ≤ dy) (hdy1 : dy < (buf.shape.length : Int))
    (hne : dx ≠ dy) :
    ∃ ts : List Int,
      get_tile_shape mesh reg buf = .ok ts
      ∧ ts.length = buf.shape.length
      ∧ ts.getD dx.toNat 0 = ceildiv (buf.shape.getD dx.toNat 0) nx
      ∧ ts.getD dy.toNat 0 = ceildiv (buf.shape.getD dy.toNat 0) ny
      ∧ (∀ j : Nat, j < buf.shape.length → j ≠ dx.toNat → j ≠ dy.toNat →
          ts.getD j 0 = buf.shape.getD j 0)
      ∧ ceildiv (buf.shape.getD dx.toNat 0) nx
          = Int.fdiv (buf.shape.getD dx.toNat 0 + nx - 1) nx
      ∧ ceildiv (buf.shape.getD dy.toNat 0) ny
          = Int.fdiv (buf.shape.getD dy.toNat 0 + ny - 1) ny := by
  have hnN : dx.toNat ≠ dy.toNat := by omega
  have h1 := shardUpdate_ok buf.shape dx nx mesh "x" hmx hdx0 hdx1
  have h2 := shardUpdate_ok
    (buf.shape.set dx.toNat (ceildiv (buf.shape.getD dx.toNat 0) nx))
    dy ny mesh "y" hmy hdy0 (by rw [List.length_set]; exact hdy1)
  rw [getD_set_ne _ _ _ _ hnN] at h2
  refine ⟨(buf.shape.set dx.toNat (ceildiv (buf.shape.getD dx.toNat 0) nx)).set
      dy.toNat (ceildiv (buf.shape.getD dy.toNat 0) ny),
    ?_, ?_, ?_, ?_, ?_, ?_, ?_⟩
  · simp only [get_tile_shape, hlook, hsh, hshx, hshy, h1, h2]
  · simp [List.length_set]
  · rw [getD_set_ne _ _ _ _ (Ne.symm hnN), getD_set_self _ _ _ (by omega)]
  · rw [getD_set_self _ _ _ (by simp [List.length_set]; omega)]
  · intro j hj hjx hjy
    rw [getD_set_ne _ _ _ _ (Ne.symm hjy), getD_set_ne _ _ _ _ (Ne.symm hjx)]
  · exact (Int.fdiv_eq_ediv _ (le_of_lt hnx)).symm
  · exact (Int.fdiv_eq_ediv _ (le_of_lt hny)).symm

/-- Claim C5 witness: mesh `{x: 2, y: 4}` with global shape `(128, 256)` and
sharding `{x: 0, y: 1}` yields tile shape `(64, 64)`, and mesh `{x: 3, y: 4}`
with global shape `(100, 256)` yields `(34, 64)`; the general theorem is
applied at the first configuration. -/
theorem c5_tile_shape_distinct_axes_witness :
    (∃ ts : List Int,
      get_tile_shape (.dict [("x", .int 2), ("y", .int 4)])
          [(0, .dict [("block_shape", .list [.int 16, .int 16]),
                      ("program_id", .int 0),
                      ("sharding", .dict [("x", .int 0), ("y", .int 1)])])]
          ⟨0, [128, 256]⟩
        = .ok ts
      ∧ ts.getD 0 0 = ceildiv 128 2 ∧ ts.getD 1 0 = ceildiv 256 4)
    ∧ get_tile_shape (.dict [("x", .int 2), ("y", .int 4)])
        [(0, .dict [("block_shape", .list [.int 16, .int 16]),
                    ("program_id", .int 0),
                    ("sharding", .dict [("x", .int 0), ("y", .int 1)])])]
        ⟨0, [128, 256]⟩
      = .ok [64, 64]
    ∧ get_tile_shape (.dict [("x", .int 3), ("y", .int 4)])
        [(0, .dict [("block_shape", .list [.int 16, .int 16]),
                    ("program_id", .int 0),
                    ("sharding", .dict [("x", .int 0), ("y", .int 1)])])]
        ⟨0, [100, 256]⟩
      = .ok [34, 64] := by
  refine ⟨?_, rfl, rfl⟩
  obtain ⟨ts, hts, _, hx, hy, _, _, _⟩ := c5_tile_shape_distinct_axes
    (.dict [("x", .int 2), ("y", .int 4)])
    [(0, .dict [("block_shape", .list [.int 16, .int 16]),
                ("program_id", .int 0),
                ("sharding", .dict [("x", .int 0), ("y", .int 1)])])]
    ⟨0, [128, 256]⟩
    (.dict [("block_shape", .list [.int 16, .int 16]),
            ("program_id", .int 0),
            ("sharding", .dict [("x", .int 0), ("y", .int 1)])])
    (.dict [("x", .int 0), ("y", .int 1)])
    0 1 2 4 rfl rfl rfl rfl rfl rfl
    (by decide) (by decide) (by decide) (by decide) (by decide) (by decide)
    (by decide)
  exact ⟨ts, hts, hx, hy⟩

/-- Claim C8: when both mesh axes map to the same tensor dimension `d`, the
tile-shape computation succeeds and the `"y"` update overwrites the `"x"`
one, producing the double-divided size
`ceildiv (ceildiv globalShape[d] nx) ny` at dimension `d` with every other
dimension unchanged. -/
theorem c8_tile_shape_axis_collision
    (mesh : Val) (reg : Registry) (buf : Buffer) (info sh : Val)
    (d nx ny : Int)
    (hlook : registryLookup reg buf.data = some info)
    (hsh : subscript info "sharding" = .ok sh)
    (hshx : subscript sh "x" = .ok (.int d))
    (hshy : subscript sh "y" = .ok (.int d))
    (hmx : subscript mesh "x" = .ok (.int nx))
    (hmy : subscript mesh "y" = .ok (.int ny))
    (hd0 : 0 ≤ d) (hd1 : d < (buf.shape.length : Int)) :
    get_tile_shape mesh reg buf
      = .ok (buf.shape.set d.toNat
          (ceildiv (ceildiv (buf.shape.getD d.toNat 0) nx) ny)) := by
  have h1 := shardUpdate_ok buf.shape d nx mesh "x" hmx hd0 hd1
  have h2 := shardUpdate_ok
    (buf.shape.set d.toNat (ceildiv (buf.shape.getD d.toNat 0) nx))
    d ny mesh "y" hmy hd0 (by rw [List.length_set]; exact hd1)
  rw [getD_set_self _ _ _ (by omega), List.set_set] at h2
  simp only [get_tile_shape, hlook, hsh, hshx, hshy, h1, h2]

/-- Claim C8 witness: mesh `{x: 2, y: 4}` with global shape `(128, 256)` and
the colliding sharding `{x: 0, y: 0}` yields `(16, 256)`: dimension 0 is
divided by 2 and then by 4, dimension 1 is untouched. -/
theorem c8_tile_shape_axis_collision_witness :
    get_tile_shape (.dict [("x", .int 2), ("y", .int 4)])
        [(0, .dict [("block_shape", .list [.int 16, .int 16]),
                    ("program_id", .int 0),
                    ("sharding", .dict [("x", .int 0), ("y", .int 0)])])]
        ⟨0, [128, 256]⟩
      = .ok (([128, 256] : List Int).set 0
          (ceildiv (ceildiv (([128, 256] : List Int).getD 0 0) 2) 4))
    ∧ (([128, 256] : List Int).set 0
        (ceildiv (ceildiv (([128, 256] : List Int).getD 0 0) 2) 4))
      = [16, 256] :=
  ⟨c8_tile_shape_axis_collision
      (.dict [("x", .int 2), ("y", .int 4)])
      [(0, .dict [("block_shape", .list [.int 16, .int 16]),
                  ("program_id", .int 0),
                  ("sharding", .dict [("x", .int 0), ("y", .int 0)])])]
      ⟨0, [128, 256]⟩
      (.dict [("block_shape", .list [.int 16, .int 16]),
              ("program_id", .int 0),
              ("sharding", .dict [("x", .int 0), ("y", .int 0)])])
      (.dict [("x", .int 0), ("y", .int 0)])
      0 2 4 rfl rfl rfl rfl rfl rfl (by decide) (by decide),
   by decide⟩

end MeshTensor

namespace MeshTensor

/-- Claim C10: `annotate` validates only the top-level presence of the
required keys, so an entry whose `"sharding"` value is malformed (not a
mapping, or a mapping lacking key `"x"`) is accepted and stored reachably;
the subsequent tile-shape computation on that buffer then fails with the raw
`TypeError`/`KeyError` of the inner subscript, which is distinct from the
registry's not-found error. -/
theorem c10_shallow_validation (prev : Registry) (b : Buffer)
    (bsv pid shv mesh : Val) :
    annotate_mesh_tensor_info
        [(b, .dict [("block_shape", bsv), ("program_id", pid), ("sharding", shv)])]
        prev
      = (.ok (.funcAttr
          [(b.data, .dict [("block_shape", bsv), ("program_id", pid),
                           ("sharding", shv)])]),
         [(b.data, .dict [("block_shape", bsv), ("program_id", pid),
                          ("sharding", shv)])])
    ∧ registryLookup
        [(b.data, .dict [("block_shape", bsv), ("program_id", pid),
                         ("sharding", shv)])] b.data
      = some (.dict [("block_shape", bsv), ("program_id", pid), ("sharding", shv)])
    ∧ ((∀ entries : List (String × Val), shv ≠ .dict entries) →
        get_tile_shape mesh
            [(b.data, .dict [("block_shape", bsv), ("program_id", pid),
                             ("sharding", shv)])] b
          = .error .typeError)
    ∧ (∀ entries : List (String × Val), shv = .dict entries →
        entries.find? (fun p => p.1 == "x") = none →
        get_tile_shape mesh
            [(b.data, .dict [("block_shape", bsv), ("program_id", pid),
                             ("sharding", shv)])] b
          = .error (.keyError "x"))
    ∧ Err.typeError ≠ .notFound b
    ∧ (Err.keyError "x" ≠ Err.notFound b) := by
  have hlook : registryLookup
      [(b.data, Val.dict [("block_shape", bsv), ("program_id", pid),
                          ("sharding", shv)])] b.data
      = some (.dict [("block_shape", bsv), ("program_id", pid),
                     ("sharding", shv)]) := by
    rw [registryLookup_cons, if_pos rfl]
  have hsub : subscript
      (Val.dict [("block_shape", bsv), ("program_id", pid), ("sharding", shv)])
      "sharding" = .ok shv := rfl
  refine ⟨rfl, hlook, ?_, ?_, fun h => Err.noConfusion h, fun h => Err.noConfusion h⟩
  · intro hnd
    simp only [get_tile_shape, hlook, hsub]
    cases shv with
    | dict entries => exact absurd rfl (hnd entries)
    | int n => rfl
    | str s => rfl
    | list elems => rfl
  · intro entries heq hfind
    subst heq
    simp only [get_tile_shape, hlook, hsub]
    simp only [subscript, hfind]

/-- Claim C10 witness: the theorem applied twice — once with the non-mapping
sharding value `7` (tile shape fails with the raw `TypeError`) and once with
the sharding mapping `{y: 1}` lacking `"x"` (tile shape fails with the raw
`KeyError "x"`); both entries were accepted by `annotate`. -/
theorem c10_shallow_validation_witness :
    annotate_mesh_tensor_info
        [(⟨3, [64, 64]⟩, .dict [("block_shape", .list [.int 16, .int 16]),
                                ("program_id", .int 0),
                                ("sharding", .int 7)])] []
      = (.ok (.funcAttr
          [(3, .dict [("block_shape", .list [.int 16, .int 16]),
                      ("program_id", .int 0), ("sharding", .int 7)])]),
         [(3, .dict [("block_shape", .list [.int 16, .int 16]),
                     ("program_id", .int 0), ("sharding", .int 7)])])
    ∧ get_tile_shape (.dict [("x", .int 2), ("y", .int 4)])
        [(3, .dict [("block_shape", .list [.int 16, .int 16]),
                    ("program_id", .int 0), ("sharding", .int 7)])]
        ⟨3, [64, 64]⟩
      = .error .typeError
    ∧ get_tile_shape (.dict [("x", .int 2), ("y", .int 4)])
        [(3, .dict [("block_shape", .list [.int 16, .int 16]),
                    ("program_id", .int 0),
                    ("sharding", .dict [("y", .int 1)])])]
        ⟨3, [64, 64]⟩
      = .error (.keyError "x") :=
  ⟨(c10_shallow_validation [] ⟨3, [64, 64]⟩ (.list [.int 16, .int 16])
      (.int 0) (.int 7) (.dict [("x", .int 2), ("y", .int 4)])).1,
   (c10_shallow_validation [] ⟨3, [64, 64]⟩ (.list [.int 16, .int 16])
      (.int 0) (.int 7) (.dict [("x", .int 2), ("y", .int 4)])).2.2.1
     (fun _ h => Val.noConfusion h),
   (c10_shallow_validation [] ⟨3, [64, 64]⟩ (.list [.int 16, .int 16])
      (.int 0) (.dict [("y", .int 1)])
      (.dict [("x", .int 2), ("y", .int 4)])).2.2.2.1 [("y", .int 1)] rfl rfl⟩

end MeshTensor

namespace MeshTensor

theorem annotateGo_fst_none_of_valid :
    ∀ (input : List (Buffer × Val)) (acc : Registry),
      (∀ q ∈ input, validInfo q.2 = true) → (annotateGo input acc).1 = none := by
  intro input
  induction input with
  | nil => intro acc _; rfl
  | cons q rest ih =>
    intro acc hall
    obtain ⟨b, info⟩ := q
    have hv : validInfo info = true := hall (b, info) (List.mem_cons_self _ _)
    simp only [annotateGo, hv, if_true]
    exact ih (dictInsert acc b.data info)
      (fun r hr => hall r (List.mem_cons_of_mem _ hr))

theorem annotateGo_first_invalid :
    ∀ (input : List (Buffer × Val)) (acc : Registry) (q : Buffer × Val),
      input.find? (fun r => !(validInfo r.2)) = some q →
      (annotateGo input acc).1 = some (.schemaError q.2) := by
  intro input
  induction input with
  | nil => intro acc q h; simp [List.find?] at h
  | cons r rest ih =>
    intro acc q h
    obtain ⟨b, info⟩ := r
    cases hv : validInfo info with
    | true =>
      simp only [List.find?, hv, Bool.not_true] at h
      simp only [annotateGo, hv, if_true]
      exact ih (dictInsert acc b.data info) q h
    | false =>
      simp only [List.find?, hv, Bool.not_false] at h
      injection h with h1
      simp only [annotateGo, hv, Bool.false_eq_true, if_false]
      rw [← h1]

/-- Claim C3, amended: `annotate` fails with a `SchemaError` naming the
offending entry exactly when some entry's info is not a mapping or misses a
required key, where the required keys are `"block_shape"`, `"program_id"`
and `"sharding"` (extra keys are allowed): the call succeeds if and only if
every entry contains all three required keys, and whenever an offending
entry exists the call fails with the `SchemaError` carrying the first such
entry's info — so in particular an entry lacking `"program_id"` is rejected,
contrary to the original claim. -/
theorem c3_annotate_schema_iff (input : List (Buffer × Val)) (prev : Registry) :
    ((∀ q ∈ input, specInfoAccepted q.2 = true)
      ↔ ∃ (tok : Token) (reg' : Registry),
          annotate_mesh_tensor_info input prev = (.ok tok, reg'))
    ∧ ∀ q : Buffer × Val,
        input.find? (fun r => !(specInfoAccepted r.2)) = some q →
        (annotate_mesh_tensor_info input prev).1 = .error (.schemaError q.2) := by
  constructor
  · constructor
    · intro hall
      have hnone : (annotateGo input []).1 = none :=
        annotateGo_fst_none_of_valid input [] (fun q hq => hall q hq)
      unfold annotate_mesh_tensor_info
      rcases hgo : annotateGo input [] with ⟨oe, acc⟩
      rw [hgo] at hnone
      cases oe with
      | some e => simp at hnone
      | none => exact ⟨.funcAttr acc, acc, rfl⟩
    · rintro ⟨tok, reg', hok⟩ q hq
      have hnone : (annotateGo input []).1 = none := by
        unfold annotate_mesh_tensor_info at hok
        rcases hgo : annotateGo input [] with ⟨oe, acc⟩
        rw [hgo] at hok
        cases oe with
        | none => rfl
        | some e2 =>
          injection hok with ha hb
          exact Except.noConfusion ha
      exact annotateGo_fst_none input [] hnone q hq
  · intro q hfind
    have h := annotateGo_first_invalid input [] q hfind
    unfold annotate_mesh_tensor_info
    rcases hgo : annotateGo input [] with ⟨oe, acc⟩
    rw [hgo] at h
    cases oe with
    | none => simp at h
    | some e2 =>
      have he : e2 = Err.schemaError q.2 := by simpa using h
      rw [he]

/-- Claim C3 witness: the biconditional applied at concrete inputs — an entry
holding all three required keys plus an extra one is accepted, and an entry
with only `"block_shape"` and `"sharding"` (no `"program_id"`) is the first
offending entry, so the call fails with the `SchemaError` naming it. -/
theorem c3_annotate_schema_iff_witness :
    (∃ (tok : Token) (reg' : Registry),
        annotate_mesh_tensor_info
            [(⟨0, [64]⟩, .dict [("block_shape", .list [.int 16]),
                                ("program_id", .int 0),
                                ("sharding", .dict [("x", .int 0), ("y", .int 0)]),
                                ("extra", .int 5)])] []
          = (.ok tok, reg'))
    ∧ (annotate_mesh_tensor_info
          [(⟨0, [64]⟩, .dict [("block_shape", .list [.int 16]),
                              ("sharding", .dict [("x", .int 0), ("y", .int 0)])])]
          []).1
        = .error (.schemaError
            (.dict [("block_shape", .list [.int 16]),
                    ("sharding", .dict [("x", .int 0), ("y", .int 0)])])) :=
  ⟨(c3_annotate_schema_iff
      [(⟨0, [64]⟩, .dict [("block_shape", .list [.int 16]),
                          ("program_id", .int 0),
                          ("sharding", .dict [("x", .int 0), ("y", .int 0)]),
                          ("extra", .int 5)])] []).1.mp
      (by intro q hq; rcases List.mem_singleton.mp hq with rfl; rfl),
   (c3_annotate_schema_iff
      [(⟨0, [64]⟩, .dict [("block_shape", .list [.int 16]),
                          ("sharding", .dict [("x", .int 0), ("y", .int 0)])])]
      []).2
      (⟨0, [64]⟩, .dict [("block_shape", .list [.int 16]),
                         ("sharding", .dict [("x", .int 0), ("y", .int 0)])])
      rfl⟩

end MeshTensor
